import Mathlib

set_option maxRecDepth 8000

/-!
Verification of the CFO query-to-answer pipeline: a shallow embedding of the
financial aggregation engine (tools.py, wide month-column schema) and the
query router (agent/planner.py), with theorems settling the specification
claims about them.  Tables are embedded as explicit column lists plus rows
mapping month columns to rational amounts; pandas NaN-filling, the FX 1.0
fallback and the usd-column-existence checks are modelled explicitly.
-/

namespace CFO

/-! ### String utilities mirroring Python semantics (ASCII queries) -/

/-- Does the pattern occur as a contiguous substring?  Models Python `in` /
`str.contains` with a literal pattern. -/
def containsFrom (p : List Char) : List Char → Bool
  | [] => p.isEmpty
  | c :: t => p.isPrefixOf (c :: t) || containsFrom p t

/-- `strContains s pat`: `pat` occurs inside `s`. -/
def strContains (s pat : String) : Bool := containsFrom pat.data s.data

/-- ASCII lowercasing, modelling Python `str.lower` on ASCII input. -/
def lowerStr (s : String) : String := String.mk (s.data.map Char.toLower)

/-- Drop everything up to and including the first occurrence of `p`;
`none` when `p` does not occur.  Helper for in-order regex matching. -/
def dropAfterFirst (p : List Char) : List Char → Option (List Char)
  | [] => if p = [] then some [] else none
  | c :: t => if p.isPrefixOf (c :: t) then some ((c :: t).drop p.length)
      else dropAfterFirst p t

/-- `inOrder ws s`: the literal words `ws` occur in `s` in order, models a
regex `w1.*w2.*...*wn` applied to a single line. -/
def inOrder : List String → List Char → Bool
  | [], _ => true
  | w :: ws, s =>
    match dropAfterFirst w.data s with
    | none => false
    | some rest => inOrder ws rest

/-- Splitting a character list at newlines (Python `str.split('\\n')`). -/
def splitLines : List Char → List (List Char)
  | [] => [[]]
  | c :: t =>
    if c = '\n' then [] :: splitLines t
    else
      match splitLines t with
      | [] => [[c]]
      | l :: ls => (c :: l) :: ls

/-- `re.search` of a pattern `w1.*w2.*...` on a string: `.` does not match a
newline, so the whole match lives inside one line. -/
def inOrderPat (pat : List String) (q : String) : Bool :=
  (splitLines q.data).any (fun line => inOrder pat line)

/-- Strict lexicographic comparison of character lists by code point, the
ordering Python uses on strings. -/
def charsLt : List Char → List Char → Bool
  | [], [] => false
  | [], _ :: _ => true
  | _ :: _, [] => false
  | a :: as, b :: bs => if a < b then true else if b < a then false else charsLt as bs

/-- Non-strict lexicographic comparison of character lists. -/
def charsLe : List Char → List Char → Bool
  | [], _ => true
  | _ :: _, [] => false
  | a :: as, b :: bs => if a < b then true else if b < a then false else charsLe as bs

/-- Python `<` on strings. -/
def strLt (a b : String) : Bool := charsLt a.data b.data

/-- Python `<=` on strings. -/
def strLe (a b : String) : Bool := charsLe a.data b.data

/-! ### Exact rational arithmetic
A small normalized-rational type whose operations the kernel can evaluate,
used to model the float arithmetic of the source exactly on the decimal
inputs that occur. -/

/-- A rational number as a normalized numerator/denominator pair. -/
structure Q where
  num : Int
  den : Nat
deriving DecidableEq, Repr

/-- Normalization: divide out the gcd, fixing `0/d` to `0/1`. -/
def Q.norm (n : Int) (d : Nat) : Q :=
  let g := Nat.gcd n.natAbs d
  if g = 0 then ⟨0, 1⟩ else ⟨n / (g : Int), d / g⟩

instance : OfNat Q n := ⟨⟨n, 1⟩⟩

instance : NatCast Q := ⟨fun n => ⟨n, 1⟩⟩

instance : Neg Q := ⟨fun a => ⟨-a.num, a.den⟩⟩

instance : Add Q := ⟨fun a b => Q.norm (a.num * b.den + b.num * a.den) (a.den * b.den)⟩

instance : Sub Q := ⟨fun a b => Q.norm (a.num * b.den - b.num * a.den) (a.den * b.den)⟩

instance : Mul Q := ⟨fun a b => Q.norm (a.num * b.num) (a.den * b.den)⟩

/-- Reciprocal; `inv 0 = 0` as for `Q`. -/
def Q.inv (a : Q) : Q :=
  if a.num > 0 then ⟨a.den, a.num.natAbs⟩
  else if a.num < 0 then ⟨-(a.den : Int), a.num.natAbs⟩
  else ⟨0, 1⟩

instance : Div Q := ⟨fun a b => a * b.inv⟩

instance : LT Q := ⟨fun a b => a.num * (b.den : Int) < b.num * (a.den : Int)⟩

instance : LE Q := ⟨fun a b => a.num * (b.den : Int) ≤ b.num * (a.den : Int)⟩

instance (a b : Q) : Decidable (a < b) :=
  inferInstanceAs (Decidable (a.num * (b.den : Int) < b.num * (a.den : Int)))

instance (a b : Q) : Decidable (a ≤ b) :=
  inferInstanceAs (Decidable (a.num * (b.den : Int) ≤ b.num * (a.den : Int)))

/-- Absolute value. -/
def Q.abs (a : Q) : Q := ⟨(a.num.natAbs : Int), a.den⟩

/-- Floor to an integer. -/
def Q.floor (a : Q) : Int := Int.fdiv a.num a.den

/-- Round half up to an integer (models `'%.1f'` up to tie behavior). -/
def Q.round (a : Q) : Int := (a + ⟨1, 2⟩).floor

/-- Sum of a list of rationals. -/
def Q.sumList : List Q → Q
  | [] => 0
  | x :: xs => x + Q.sumList xs

instance : ToString Q := ⟨fun a => toString a.num ++ "/" ++ toString a.den⟩

/-- A normalized rational (as every decimal-data amount is) is unchanged by
multiplication with 1. -/
theorem q_mul_one (a : Q) (h : Q.norm a.num a.den = a) : a * 1 = a := by
  show Q.norm (a.num * 1) (a.den * 1) = a
  simpa using h

/-! ### Data model: wide-format frames (tools.py) -/

/-- One data row: an account label, a currency code, and per-month-column
amounts (pandas cells; NaN already filled with 0 by `_preprocess_data`). -/
structure Row where
  account : String
  currency : String
  cells : List (String × Q)
deriving DecidableEq, Repr

/-- Cell value of a row at a month column (0 models the NaN fill). -/
def Row.cell (r : Row) (m : String) : Q := ((r.cells.lookup m).map id).getD 0

/-- A dataframe: its column labels and its rows. -/
structure Frame where
  cols : List String
  rows : List Row
deriving DecidableEq, Repr

/-- The four session tables held by `FinancialTools`. -/
structure St where
  actuals : Frame
  budget : Frame
  fx : Frame
  cash : Frame
deriving DecidableEq, Repr

/-- `self.month_columns`: actuals columns that start with `2025-`. -/
def monthColumns (st : St) : List String :=
  st.actuals.cols.filter (fun c => List.isPrefixOf "2025-".data c.data)

/-- FX rate applied to one row by `_convert_to_usd`: 1.0 for USD, else the
first fx row for the currency (1.0 when there is none, when the fx frame has
no such month column, or when the stored rate is 0 — fx cells default to 1.0
after `fx.fillna(1.0)`). -/
def fxRate (st : St) (currency m : String) : Q :=
  if currency = "USD" then 1
  else
    match st.fx.rows.find? (fun r => r.currency = currency) with
    | none => 1
    | some fr =>
      if m ∈ st.fx.cols then
        let v := (fr.cells.lookup m).getD 1
        if v = 0 then 1 else v
      else 1

/-- The `{month}_usd` value `_convert_to_usd` writes for one row. -/
def rowUSD (st : St) (r : Row) (m : String) : Q := r.cell m * fxRate st r.currency m

/-- `_convert_to_usd` seen through its callers: `some` of the per-row usd
values when the `{month}_usd` column exists afterwards (month is a known
month column, the frame has rows for the assignment loop to run, and the
frame carries the month column for the in-loop guard), `none` otherwise. -/
def convert_to_usd (st : St) (df : Frame) (m : String) : Option (List Q) :=
  if m ∈ monthColumns st then
    match df.rows with
    | [] => none
    | _ :: _ => if m ∈ df.cols then some (df.rows.map (fun r => rowUSD st r m)) else none
  else none

/-- `df[f'{month}_usd'].sum() if f'{month}_usd' in df.columns else 0`. -/
def usdSum (st : St) (df : Frame) (m : String) : Q :=
  ((convert_to_usd st df m).map (fun l => Q.sumList l)).getD 0

/-- Revenue filter: account contains `Revenue` or `Sales`, case-insensitive. -/
def isRevenueAccount (a : String) : Bool :=
  strContains (lowerStr a) "revenue" || strContains (lowerStr a) "sales"

/-- COGS filter: account contains `COGS`, `Cost of Goods` or `Cost of Sales`. -/
def isCogsAccount (a : String) : Bool :=
  strContains (lowerStr a) "cogs" || strContains (lowerStr a) "cost of goods" ||
    strContains (lowerStr a) "cost of sales"

/-- The combined pattern `Revenue|Sales|COGS|Cost of Goods|Cost of Sales`. -/
def isRevCogsAccount (a : String) : Bool := isRevenueAccount a || isCogsAccount a

/-- Sub-frame of revenue accounts. -/
def revenueRows (f : Frame) : Frame :=
  ⟨f.cols, f.rows.filter (fun r => isRevenueAccount r.account)⟩

/-- Sub-frame of COGS accounts. -/
def cogsRows (f : Frame) : Frame :=
  ⟨f.cols, f.rows.filter (fun r => isCogsAccount r.account)⟩

/-- Sub-frame of OpEx accounts: everything that is neither revenue nor COGS. -/
def opexRows (f : Frame) : Frame :=
  ⟨f.cols, f.rows.filter (fun r => !(isRevCogsAccount r.account))⟩

/-- `[col for col in month_columns if start_month <= col <= end_month]`. -/
def windowMonths (st : St) (s e : String) : List String :=
  (monthColumns st).filter (fun c => strLe s c && strLe c e)

/-- One result row of `get_revenue_vs_budget`. -/
structure RevBudgetRow where
  month : String
  actual_usd : Q
  budget_usd : Q
  variance_usd : Q
  variance_pct : Q
deriving DecidableEq, Repr

/-- `get_revenue_vs_budget(start_month, end_month)`. -/
def get_revenue_vs_budget (st : St) (s e : String) : List RevBudgetRow :=
  (windowMonths st s e).map (fun m =>
    let a := usdSum st (revenueRows st.actuals) m
    let b := usdSum st (revenueRows st.budget) m
    { month := m, actual_usd := a, budget_usd := b, variance_usd := a - b,
      variance_pct := if b > 0 then (a - b) / b * 100 else 0 })

/-- One result row of `get_revenue_trend`. -/
structure TrendRow where
  month : String
  revenue_usd : Q
deriving DecidableEq, Repr

/-- `get_revenue_trend(start_month, end_month)`. -/
def get_revenue_trend (st : St) (s e : String) : List TrendRow :=
  (windowMonths st s e).map (fun m =>
    { month := m, revenue_usd := usdSum st (revenueRows st.actuals) m })

/-- One result row of `get_gross_margin_trend`. -/
structure MarginRow where
  month : String
  revenue_usd : Q
  cogs_usd : Q
  gross_profit_usd : Q
  gross_margin_pct : Q
deriving DecidableEq, Repr

/-- `get_gross_margin_trend(start_month, end_month)`. -/
def get_gross_margin_trend (st : St) (s e : String) : List MarginRow :=
  (windowMonths st s e).map (fun m =>
    let rev := usdSum st (revenueRows st.actuals) m
    let cogs := usdSum st (cogsRows st.actuals) m
    { month := m, revenue_usd := rev, cogs_usd := cogs,
      gross_profit_usd := rev - cogs,
      gross_margin_pct := if rev > 0 then (rev - cogs) / rev * 100 else 0 })

/-- `_categorize_expense`: ordered keyword-containment buckets. -/
def categorize_expense (account : String) : String :=
  let a := lowerStr account
  if ["r&d", "research", "development", "engineering"].any (fun t => strContains a t) then
    "R&D"
  else if ["sales", "marketing", "advertising"].any (fun t => strContains a t) then
    "Sales & Marketing"
  else if ["admin", "general", "legal", "finance", "hr"].any (fun t => strContains a t) then
    "General & Admin"
  else if ["rent", "office", "utilities", "facilities"].any (fun t => strContains a t) then
    "Facilities"
  else if ["salary", "wages", "payroll", "compensation"].any (fun t => strContains a t) then
    "Personnel"
  else "Other"

/-- One grouped result row of `get_opex_breakdown`. -/
structure OpexRow where
  category : String
  amount_usd : Q
  month : String
deriving DecidableEq, Repr

/-- Ascending insertion (used to model the sorted keys of pandas `groupby`). -/
def insertAsc (c : String) : List String → List String
  | [] => [c]
  | x :: xs => if strLe c x then c :: x :: xs else x :: insertAsc c xs

/-- Ascending sort of category keys, as `groupby('category')` produces. -/
def sortAsc (l : List String) : List String := l.foldr insertAsc []

/-- Sum of the amounts carried by one category. -/
def catSum (entries : List (String × Q)) (c : String) : Q :=
  Q.sumList ((entries.filter (fun p => p.1 = c)).map (fun p => p.2))

/-- `get_opex_breakdown(month)`: non-revenue non-COGS rows of actuals,
usd-converted, zero amounts dropped, grouped by `_categorize_expense`
category (group keys ascending, as pandas `groupby` sorts them). -/
def get_opex_breakdown (st : St) (m : String) : List OpexRow :=
  if m ∈ monthColumns st then
    let ops := opexRows st.actuals
    let entries := ops.rows.filterMap (fun r =>
      let amt := if m ∈ ops.cols then rowUSD st r m else 0
      if amt = 0 then none else some (categorize_expense r.account, amt))
    (sortAsc ((entries.map (fun p => p.1)).dedup)).map (fun c =>
      { category := c, amount_usd := catSum entries c, month := m })
  else []

/-- Python `max` over a list of strings (first maximal element). -/
def listMaxStr : List String → Option String
  | [] => none
  | x :: xs => some (xs.foldl (fun a b => if strLt a b then b else a) x)

/-- `get_current_cash_balance`: usd sum of the cash table at the latest month
column; `None` when there are no month columns (the `max()` raise is caught)
or when the `{month}_usd` column was never created. -/
def get_current_cash_balance (st : St) : Option Q :=
  match listMaxStr (monthColumns st) with
  | none => none
  | some latest =>
    match convert_to_usd st st.cash latest with
    | some l => some (Q.sumList l)
    | none => none

/-- `get_average_burn_rate(months)`: mean month-over-month change of the cash
balances over the last `months` month columns; `None` with fewer than two
usable balances.  `month_columns[-months:]` is the whole list when
`months = 0`. -/
def get_average_burn_rate (st : St) (months : Nat) : Option Q :=
  let mc := monthColumns st
  let latest := if months = 0 then mc else mc.drop (mc.length - months)
  let balances := latest.filterMap (fun m => (convert_to_usd st st.cash m).map (fun l => Q.sumList l))
  if balances.length < 2 then none
  else
    let changes := (balances.zip balances.tail).map (fun p => p.2 - p.1)
    some (Q.sumList changes / (changes.length : Q))

/-- `get_cash_runway`: `current_cash / abs(avg_burn)` when the cash balance is
truthy and the 3-month average burn is truthy and negative, else `None`. -/
def get_cash_runway (st : St) : Option Q :=
  match get_current_cash_balance st, get_average_burn_rate st 3 with
  | some c, some b => if c ≠ 0 ∧ b < 0 then some (c / Q.abs b) else none
  | some _, none => none
  | none, _ => none

/-- One result row of `get_cash_trend`. -/
structure CashRow where
  month : String
  cash_balance_usd : Q
deriving DecidableEq, Repr

/-- `get_cash_trend(start_month, end_month)`. -/
def get_cash_trend (st : St) (s e : String) : List CashRow :=
  (windowMonths st s e).map (fun m =>
    { month := m, cash_balance_usd := usdSum st st.cash m })

/-- Result dictionary of `get_ebitda`. -/
structure EbitdaResult where
  revenue : Q
  cogs : Q
  opex : Q
  ebitda : Q
  month : String
deriving DecidableEq, Repr

/-- `get_ebitda(month)`: `None` outside the month columns, else revenue, COGS
and OpEx usd sums with `ebitda = revenue - cogs - opex`. -/
def get_ebitda (st : St) (m : String) : Option EbitdaResult :=
  if m ∈ monthColumns st then
    let rev := usdSum st (revenueRows st.actuals) m
    let cogs := usdSum st (cogsRows st.actuals) m
    let opx := usdSum st (opexRows st.actuals) m
    some { revenue := rev, cogs := cogs, opex := opx, ebitda := rev - cogs - opx, month := m }
  else none

/-! ### Planner layer (agent/planner.py) -/

/-- `datetime.strptime(s, p)` with the pattern `%Y-%m`: a 4-digit year, a
dash, a 2-digit month in 1..12; `none` models the `ValueError` raise. -/
def parseYM (s : String) : Option (Nat × Nat) :=
  match s.data with
  | [y1, y2, y3, y4, d, m1, m2] =>
    if y1.isDigit && y2.isDigit && y3.isDigit && y4.isDigit && d = '-'
        && m1.isDigit && m2.isDigit then
      let y := (y1.toNat - 48) * 1000 + (y2.toNat - 48) * 100 +
        (y3.toNat - 48) * 10 + (y4.toNat - 48)
      let mo := (m1.toNat - 48) * 10 + (m2.toNat - 48)
      if 1 ≤ mo ∧ mo ≤ 12 then some (y, mo) else none
    else none
  | _ => none

/-- The `ValueError` message text that `str(e)` injects into a handler's
error response when `strptime` rejects its input. -/
def strptimeError (s : String) : String :=
  "time data does not match format %Y-%m: " ++ s

/-- Zero-padded two-digit rendering of a month number. -/
def pad2 (n : Nat) : String := if n < 10 then "0" ++ toString n else toString n

/-- `strftime('%Y-%m')`. -/
def formatYM (y mo : Nat) : String := toString y ++ "-" ++ pad2 mo

/-- `strftime('%B')`: full English month name. -/
def monthNameFull (mo : Nat) : String :=
  match mo with
  | 1 => "January" | 2 => "February" | 3 => "March" | 4 => "April"
  | 5 => "May" | 6 => "June" | 7 => "July" | 8 => "August"
  | 9 => "September" | 10 => "October" | 11 => "November" | 12 => "December"
  | _ => ""

/-- `strftime('%b')`: abbreviated English month name. -/
def monthNameAbbr (mo : Nat) : String :=
  match mo with
  | 1 => "Jan" | 2 => "Feb" | 3 => "Mar" | 4 => "Apr"
  | 5 => "May" | 6 => "Jun" | 7 => "Jul" | 8 => "Aug"
  | 9 => "Sep" | 10 => "Oct" | 11 => "Nov" | 12 => "Dec"
  | _ => ""

/-- `strftime('%B %Y')`. -/
def strftimeBY (y mo : Nat) : String := monthNameFull mo ++ " " ++ toString y

/-- `strftime('%b %Y')`. -/
def strftimebY (y mo : Nat) : String := monthNameAbbr mo ++ " " ++ toString y

/-- `'%.1f'` rendering of a rational (rounding to one decimal place). -/
def fmt1 (x : Q) : String :=
  let n : Int := Q.round (x * 10)
  if n < 0 then
    "-" ++ toString ((-n) / 10) ++ "." ++ toString ((-n) % 10)
  else
    toString (n / 10) ++ "." ++ toString (n % 10)

/-- `'%+.1f'` rendering: explicit sign. -/
def fmtS1 (x : Q) : String := if Q.round (x * 10) < 0 then fmt1 x else "+" ++ fmt1 x

/-- `CFOPlanner._get_latest_month`: max of the month columns, or the
hardcoded `'2025-12'` fallback when there are none. -/
def get_latest_month (st : St) : String :=
  match listMaxStr (monthColumns st) with
  | some m => m
  | none => "2025-12"

/-- `CFOPlanner._calculate_month_range(months_back, end_month)`: parse the
end month, step back `months_back - 1` months, rendering both bounds; the
`strptime` failure is an exception for the caller to catch. -/
def calculate_month_range (st : St) (monthsBack : Nat) (endMonth : Option String) :
    Except String (String × String) :=
  let e := endMonth.getD (get_latest_month st)
  match parseYM e with
  | none => .error (strptimeError e)
  | some (y, mo) =>
    let total := y * 12 + (mo - 1) - (monthsBack - 1)
    .ok (formatYM (total / 12) (total % 12 + 1), e)

/-- Extracted per-query time parameters. -/
structure Params where
  specific_month : Option String := none
  period : Option String := none
deriving DecidableEq, Repr

/-- The month-name table of `_extract_time_params`, in dict insertion order. -/
def monthNameTable : List (String × String) :=
  [("january", "01"), ("jan", "01"), ("february", "02"), ("feb", "02"),
   ("march", "03"), ("mar", "03"), ("april", "04"), ("apr", "04"),
   ("may", "05"), ("june", "06"), ("jun", "06"), ("july", "07"),
   ("jul", "07"), ("august", "08"), ("aug", "08"), ("september", "09"),
   ("sep", "09"), ("october", "10"), ("oct", "10"), ("november", "11"),
   ("nov", "11"), ("december", "12"), ("dec", "12")]

/-- `re.search(r'202[3-6]', q)`: first occurrence of `202` followed by a
digit 3..6, as a 4-character string. -/
def findYear : List Char → Option String
  | c1 :: c2 :: c3 :: c4 :: rest =>
    if c1 = '2' ∧ c2 = '0' ∧ c3 = '2' ∧ ('3' ≤ c4 ∧ c4 ≤ '6') then
      some (String.mk [c1, c2, c3, c4])
    else findYear (c2 :: c3 :: c4 :: rest)
  | _ => none

/-- `re.search(r'q([1-4])', q)`: the digit of the first quarter reference. -/
def findQuarter : List Char → Option Char
  | [] => none
  | c :: rest =>
    match rest with
    | d :: _ => if c = 'q' ∧ ('1' ≤ d ∧ d ≤ '4') then some d else findQuarter rest
    | [] => none

/-- `CFOPlanner._extract_time_params` over the lowercased query: first month
name found fixes `specific_month` (year from the first `202[3-6]` match, else
2025); the elif chain fixes `period`; with neither, `specific_month` defaults
to the latest data month. -/
def extract_time_params (st : St) (q : String) : Params :=
  let pm : Option String :=
    match monthNameTable.find? (fun p => strContains q p.1) with
    | some p => some (((findYear q.data).getD "2025") ++ "-" ++ p.2)
    | none => none
  let pd : Option String :=
    if inOrderPat ["last", "3", "month"] q then some "last_3_months"
    else if inOrderPat ["last", "6", "month"] q then some "last_6_months"
    else if inOrderPat ["last", "month"] q then some "last_month"
    else if inOrderPat ["this", "month"] q then some "current_month"
    else if strContains q "ytd" || inOrderPat ["year", "to", "date"] q then some "ytd"
    else if (findQuarter q.data).isSome || strContains q "quarter" then
      match findQuarter q.data with
      | some d => some ("q" ++ String.mk [d])
      | none => none
    else none
  if pm.isNone && pd.isNone then
    { specific_month := some (get_latest_month st), period := none }
  else { specific_month := pm, period := pd }

/-- `CFOPlanner._build_intent_patterns`, each regex reduced to its literal
words in order (`months?` matches exactly when `month` occurs). -/
def intent_patterns : List (String × List (List String)) :=
  [("revenue_vs_budget",
    [["revenue", "vs", "budget"], ["revenue", "compared", "budget"],
     ["actual", "revenue", "budget"], ["budget", "vs", "revenue"],
     ["revenue", "against", "budget"]]),
   ("revenue_trend",
    [["revenue", "trend"], ["revenue", "over", "time"],
     ["revenue", "last", "month"], ["show", "revenue"]]),
   ("gross_margin",
    [["gross", "margin"], ["margin", "trend"], ["margin", "percent"],
     ["profitability"]]),
   ("opex_breakdown",
    [["opex", "breakdown"], ["operating", "expense"],
     ["break", "down", "expense"], ["expense", "categor"],
     ["spending", "breakdown"], ["break", "down", "opex"],
     ["spending", "category"]]),
   ("cash_runway",
    [["cash", "runway"], ["cash", "burn"], ["how", "long", "cash"],
     ["runway"]]),
   ("cash_trend",
    [["cash", "trend"], ["cash", "over", "time"], ["cash", "balance"]]),
   ("ebitda",
    [["ebitda"], ["operating", "profit"], ["earnings"]])]

/-- `CFOPlanner.classify_intent`: lowercase, extract params, then first
intent group with any matching pattern wins, else `general`. -/
def classify_intent (st : St) (query : String) : String × Params :=
  let ql := lowerStr query
  let params := extract_time_params st ql
  match intent_patterns.find? (fun g => g.2.any (fun p => inOrderPat p ql)) with
  | some g => (g.1, params)
  | none => ("general", params)

/-- JSON record for one trend row, as `data.to_json(orient='records')`
serializes it. -/
def jsonTrendRow (r : TrendRow) : String :=
  "\x7b\x22month\x22:\x22" ++ r.month ++ "\x22,\x22revenue_usd\x22:" ++
    toString r.revenue_usd ++ "\x7d"

/-- JSON array for the trend chart payload. -/
def jsonTrend (l : List TrendRow) : String :=
  "[" ++ String.intercalate "," (l.map jsonTrendRow) ++ "]"

/-- `_handle_revenue_vs_budget`. -/
def handle_revenue_vs_budget (st : St) (p : Params) : String :=
  let month := p.specific_month.getD (get_latest_month st)
  match get_revenue_vs_budget st month month with
  | [] => "No revenue data found for " ++ month ++ "."
  | row :: _ =>
    let actual := row.actual_usd / 1000000
    let budget := row.budget_usd / 1000000
    let variance := if budget > 0 then (actual - budget) / budget * 100 else 0
    match parseYM month with
    | none => "Error retrieving revenue data: " ++ strptimeError month
    | some (y, mo) =>
      "**Revenue Performance for " ++ strftimeBY y mo ++ ":**\n\n" ++
        "• **Actual Revenue:** $" ++ fmt1 actual ++ "M\n" ++
        "• **Budgeted Revenue:** $" ++ fmt1 budget ++ "M\n" ++
        "• **Variance:** " ++ fmtS1 variance ++ "% " ++
        (if variance > 0 then "🟢 (Above budget)" else "🔴 (Below budget)")

/-- One `%b %Y` bullet of a revenue-trend response. -/
def trendBullet (r : TrendRow) : Except String String :=
  match parseYM r.month with
  | none => .error (strptimeError r.month)
  | some (y, mo) =>
    .ok ("• " ++ strftimebY y mo ++ ": $" ++ fmt1 (r.revenue_usd / 1000000) ++ "M\n")

/-- The growth line of a revenue-trend response (only with several rows). -/
def trendGrowth (r0 : TrendRow) (rest : List TrendRow) : String :=
  if (r0 :: rest).length > 1 then
    let f := r0.revenue_usd
    let l := ((r0 :: rest).getLast (by simp)).revenue_usd
    "\n**Total Growth:** " ++ fmtS1 (if f > 0 then (l - f) / f * 100 else 0) ++ "%"
  else ""

/-- `_handle_revenue_trend` body inside its `try`. -/
def handle_revenue_trend_core (st : St) (p : Params) : Except String String :=
  match (if p.period = some "last_3_months" then
          calculate_month_range st 3 (some (get_latest_month st))
        else if p.period = some "last_6_months" then
          calculate_month_range st 6 (some (get_latest_month st))
        else calculate_month_range st 6 (some (get_latest_month st))) with
  | .error e => .error e
  | .ok (s, e) =>
    match get_revenue_trend st s e with
    | [] => .ok "No revenue trend data available."
    | r0 :: rest =>
      match (r0 :: rest).mapM trendBullet with
      | .error e2 => .error e2
      | .ok bullets =>
        .ok ("**Revenue Trend (" ++ s ++ " to " ++ e ++ "):**\n\n" ++
          String.join bullets ++ trendGrowth r0 rest ++
          "\nCHART_DATA:" ++ jsonTrend (r0 :: rest))

/-- `_handle_revenue_trend` with its `except` boundary. -/
def handle_revenue_trend (st : St) (p : Params) : String :=
  match handle_revenue_trend_core st p with
  | .ok s => s
  | .error e => "Error retrieving revenue trend: " ++ e

/-- One `%b %Y` bullet of a gross-margin trend response. -/
def marginBullet (r : MarginRow) : Except String String :=
  match parseYM r.month with
  | none => .error (strptimeError r.month)
  | some (y, mo) =>
    .ok ("• " ++ strftimebY y mo ++ ": " ++ fmt1 r.gross_margin_pct ++ "%\n")

/-- `_handle_gross_margin` body inside its `try`. -/
def handle_gross_margin_core (st : St) (p : Params) : Except String String :=
  match (if p.period = some "last_3_months" then
          calculate_month_range st 3 (some (get_latest_month st))
        else
          Except.ok (p.specific_month.getD (get_latest_month st),
            p.specific_month.getD (get_latest_month st))) with
  | .error e => .error e
  | .ok (s, e) =>
    match get_gross_margin_trend st s e with
    | [] => .ok "No gross margin data available."
    | r0 :: rest =>
      if s = e then
        match parseYM r0.month with
        | none => .error (strptimeError r0.month)
        | some (y, mo) =>
          .ok ("**Gross Margin for " ++ strftimeBY y mo ++ ":** " ++
            fmt1 r0.gross_margin_pct ++ "%\n\n" ++
            "• **Revenue:** $" ++ fmt1 (r0.revenue_usd / 1000000) ++ "M\n" ++
            "• **COGS:** $" ++ fmt1 (r0.cogs_usd / 1000000) ++ "M")
      else
        match (r0 :: rest).mapM marginBullet with
        | .error e2 => .error e2
        | .ok bullets =>
          .ok ("**Gross Margin Trend (" ++ s ++ " to " ++ e ++ "):**\n\n" ++
            String.join bullets ++ "\n**Average Margin:** " ++
            fmt1 (Q.sumList ((r0 :: rest).map (fun r => r.gross_margin_pct)) /
              (((r0 :: rest).length : Q))) ++ "%")

/-- `_handle_gross_margin` with its `except` boundary. -/
def handle_gross_margin (st : St) (p : Params) : String :=
  match handle_gross_margin_core st p with
  | .ok s => s
  | .error e => "Error retrieving gross margin data: " ++ e

/-- Stable descending insertion by amount (models the display sort). -/
def insertDesc (r : OpexRow) : List OpexRow → List OpexRow
  | [] => [r]
  | x :: xs => if x.amount_usd < r.amount_usd then r :: x :: xs else x :: insertDesc r xs

/-- `sort_values('amount_usd', ascending=False)`. -/
def sortDesc (l : List OpexRow) : List OpexRow := l.foldr insertDesc []

/-- One bullet of the OpEx breakdown response (share of the total). -/
def opexBullet (total : Q) (r : OpexRow) : String :=
  "• **" ++ r.category ++ ":** $" ++ fmt1 (r.amount_usd / 1000000) ++ "M (" ++
    fmt1 (r.amount_usd / total * 100) ++ "%)\n"

/-- `_handle_opex_breakdown`. -/
def handle_opex_breakdown (st : St) (p : Params) : String :=
  let month := p.specific_month.getD (get_latest_month st)
  match get_opex_breakdown st month with
  | [] => "No operating expense data found for " ++ month ++ "."
  | r0 :: rest =>
    match parseYM month with
    | none => "Error retrieving OpEx breakdown: " ++ strptimeError month
    | some (y, mo) =>
      let total := Q.sumList ((r0 :: rest).map (fun r => r.amount_usd))
      "**Operating Expenses for " ++ strftimeBY y mo ++ ":**\n\n" ++
        "**Total OpEx:** $" ++ fmt1 (total / 1000000) ++ "M\n\n" ++
        "**Breakdown by Category:**\n" ++
        String.join ((sortDesc (r0 :: rest)).map (opexBullet total))

/-- `_handle_cash_runway`: header plus runway/status, cash and burn bullets,
each gated by Python truthiness of the corresponding optional value. -/
def handle_cash_runway (st : St) (_p : Params) : String :=
  let runway := get_cash_runway st
  let cash := get_current_cash_balance st
  let burn := get_average_burn_rate st 3
  "**Cash Runway Analysis:**\n\n" ++
    (match runway with
     | some r =>
       if r ≠ 0 then
         "• **Current Runway:** " ++ fmt1 r ++ " months\n" ++
           (if r < 6 then "• **Status:** 🔴 Critical - Consider fundraising\n"
            else if r < 12 then "• **Status:** 🟡 Caution - Monitor closely\n"
            else "• **Status:** 🟢 Healthy\n")
       else ""
     | none => "") ++
    (match cash with
     | some c => if c ≠ 0 then "• **Current Cash:** $" ++ fmt1 (c / 1000000) ++ "M\n" else ""
     | none => "") ++
    (match burn with
     | some b => if b ≠ 0 then "• **Avg Monthly Burn:** $" ++ fmt1 (Q.abs b / 1000000) ++ "M\n" else ""
     | none => "")

/-- One `%b %Y` bullet of a cash-trend response. -/
def cashBullet (r : CashRow) : Except String String :=
  match parseYM r.month with
  | none => .error (strptimeError r.month)
  | some (y, mo) =>
    .ok ("• " ++ strftimebY y mo ++ ": $" ++ fmt1 (r.cash_balance_usd / 1000000) ++ "M\n")

/-- The net-change line of a cash-trend response (only with several rows). -/
def cashChange (r0 : CashRow) (rest : List CashRow) : String :=
  if (r0 :: rest).length > 1 then
    "\n**Net Change:** $" ++
      fmtS1 ((((r0 :: rest).getLast (by simp)).cash_balance_usd -
        r0.cash_balance_usd) / 1000000) ++ "M"
  else ""

/-- `_handle_cash_trend` body inside its `try`. -/
def handle_cash_trend_core (st : St) (p : Params) : Except String String :=
  match (if p.period = some "last_6_months" then
          calculate_month_range st 6 (some (get_latest_month st))
        else calculate_month_range st 6 (some (get_latest_month st))) with
  | .error e => .error e
  | .ok (s, e) =>
    match get_cash_trend st s e with
    | [] => .ok "No cash trend data available."
    | r0 :: rest =>
      match (r0 :: rest).mapM cashBullet with
      | .error e2 => .error e2
      | .ok bullets =>
        .ok ("**Cash Balance Trend (" ++ s ++ " to " ++ e ++ "):**\n\n" ++
          String.join bullets ++ cashChange r0 rest)

/-- `_handle_cash_trend` with its `except` boundary. -/
def handle_cash_trend (st : St) (p : Params) : String :=
  match handle_cash_trend_core st p with
  | .ok s => s
  | .error e => "Error retrieving cash trend: " ++ e

/-- `_handle_ebitda`. -/
def handle_ebitda (st : St) (p : Params) : String :=
  let month := p.specific_month.getD (get_latest_month st)
  match get_ebitda st month with
  | none => "No EBITDA data available for " ++ month ++ "."
  | some d =>
    match parseYM month with
    | none => "Error calculating EBITDA: " ++ strptimeError month
    | some (y, mo) =>
      "**EBITDA for " ++ strftimeBY y mo ++ ":**\n\n" ++
        "• **Revenue:** $" ++ fmt1 (d.revenue / 1000000) ++ "M\n" ++
        "• **COGS:** $" ++ fmt1 (d.cogs / 1000000) ++ "M\n" ++
        "• **OpEx:** $" ++ fmt1 (d.opex / 1000000) ++ "M\n" ++
        "• **EBITDA:** $" ++ fmt1 (d.ebitda / 1000000) ++ "M\n\n" ++
        (if d.revenue > 0 then
          "**EBITDA Margin:** " ++ fmt1 (d.ebitda / d.revenue * 100) ++ "%"
         else "")

/-- The fixed general-guidance response of `_handle_general_query`. -/
def general_response : String :=
  "I can help you with various financial analyses. Here are some things you can ask:\n\n" ++
    "📊 **Revenue Analysis:**\n" ++
    "• \x27What was June 2025 revenue vs budget?\x27\n" ++
    "• \x27Show revenue trend for last 3 months\x27\n\n" ++
    "💰 **Profitability:**\n" ++
    "• \x27What\x27s our gross margin for June?\x27\n" ++
    "• \x27Show EBITDA for this month\x27\n\n" ++
    "💸 **Expenses:**\n" ++
    "• \x27Break down OpEx by category\x27\n" ++
    "• \x27How much did we spend on R&D?\x27\n\n" ++
    "🏦 **Cash Management:**\n" ++
    "• \x27What is our cash runway?\x27\n" ++
    "• \x27Show cash trend over 6 months\x27\n\n" ++
    "Try asking one of these questions!"

/-- `_handle_general_query` (the query text is not used). -/
def handle_general_query (_query : String) : String := general_response

/-- `CFOPlanner.process_query`: classify, then dispatch to the matching
handler; the handlers internally convert every fallible step into an error
text, so the whole pipeline is a total function into response strings and
the outer `except` boundary of the source can never be reached. -/
def process_query (st : St) (query : String) : String :=
  let ic := classify_intent st query
  let intent := ic.1
  let params := ic.2
  if intent = "revenue_vs_budget" then handle_revenue_vs_budget st params
  else if intent = "revenue_trend" then handle_revenue_trend st params
  else if intent = "gross_margin" then handle_gross_margin st params
  else if intent = "opex_breakdown" then handle_opex_breakdown st params
  else if intent = "cash_runway" then handle_cash_runway st params
  else if intent = "cash_trend" then handle_cash_trend st params
  else if intent = "ebitda" then handle_ebitda st params
  else handle_general_query query

/-! ### Spec-side definitions (for refinement comparison) -/

/-- Spec-side month recognizer: a `YYYY-MM` string with a month in 01..12.
Follows the data model's month format, used only to compare the code's
`2025-` column filter with the spec's notion of the months present in the
actuals table. -/
def isMonthFormat (s : String) : Bool := (parseYM s).isSome

/-- Spec-side MonthSet of a frame: the month-formatted columns present.
Written after the spec's words, to be compared with `monthColumns`. -/
def specMonthsPresent (f : Frame) : List String := f.cols.filter isMonthFormat

/-! ### Concrete fixture states used by scenarios, witnesses and
counterexamples -/

/-- Scenario 1 state: actual Revenue 1,000,000 USD vs budget 950,000 USD for
2025-01. -/
def scen1St : St :=
  { actuals := ⟨["account", "currency", "2025-01"],
      [⟨"Revenue", "USD", [("2025-01", 1000000)]⟩]⟩,
    budget := ⟨["account", "currency", "2025-01"],
      [⟨"Revenue", "USD", [("2025-01", 950000)]⟩]⟩,
    fx := ⟨["currency"], []⟩,
    cash := ⟨["2025-01"], []⟩ }

/-- The single result row of scenario 1. -/
def scen1Row : RevBudgetRow :=
  ⟨"2025-01", 1000000, 950000, 50000, 100 / 19⟩

/-- Negative-budget state: actual Revenue 500, budgeted Revenue -1000. -/
def cex3St : St :=
  { actuals := ⟨["account", "currency", "2025-01"],
      [⟨"Revenue", "USD", [("2025-01", 500)]⟩]⟩,
    budget := ⟨["account", "currency", "2025-01"],
      [⟨"Revenue", "USD", [("2025-01", -1000)]⟩]⟩,
    fx := ⟨["currency"], []⟩,
    cash := ⟨["2025-01"], []⟩ }

/-- Negative-revenue state: actual Revenue -100, no COGS rows. -/
def cex4St : St :=
  { actuals := ⟨["account", "currency", "2025-01"],
      [⟨"Revenue", "USD", [("2025-01", -100)]⟩]⟩,
    budget := ⟨["account", "currency", "2025-01"], []⟩,
    fx := ⟨["currency"], []⟩,
    cash := ⟨["2025-01"], []⟩ }

/-- The margin row produced by `scen1St` for 2025-01 (positive revenue). -/
def scen1MarginRow : MarginRow := ⟨"2025-01", 1000000, 0, 1000000, 100⟩

/-- Scenario 3 failing input: exactly the rows Opex:Marketing = 100,000,
Opex:Sales = 80,000 and Opex:R&D = 120,000 (USD) for 2025-06. -/
def cex2St : St :=
  { actuals := ⟨["account", "currency", "2025-06"],
      [⟨"Opex:Marketing", "USD", [("2025-06", 100000)]⟩,
       ⟨"Opex:Sales", "USD", [("2025-06", 80000)]⟩,
       ⟨"Opex:R&D", "USD", [("2025-06", 120000)]⟩]⟩,
    budget := ⟨["account", "currency", "2025-06"], []⟩,
    fx := ⟨["currency"], []⟩,
    cash := ⟨["2025-06"], []⟩ }

/-- Scenario 2 state: cash balances 5,000,000 / 4,800,000 / 4,600,000 over
2025-01..2025-03. -/
def scen2St : St :=
  { actuals := ⟨["account", "currency", "2025-01", "2025-02", "2025-03"], []⟩,
    budget := ⟨["account"], []⟩,
    fx := ⟨["currency"], []⟩,
    cash := ⟨["entity", "2025-01", "2025-02", "2025-03"],
      [⟨"Consolidated", "USD",
        [("2025-01", 5000000), ("2025-02", 4800000), ("2025-03", 4600000)]⟩]⟩ }

/-- Zero-final-cash state: balances 400,000 / 200,000 / 0, so the burn is
-200,000 per month while the latest balance is exactly 0. -/
def cex6St : St :=
  { actuals := ⟨["account", "currency", "2025-01", "2025-02", "2025-03"], []⟩,
    budget := ⟨["account"], []⟩,
    fx := ⟨["currency"], []⟩,
    cash := ⟨["entity", "2025-01", "2025-02", "2025-03"],
      [⟨"Consolidated", "USD",
        [("2025-01", 400000), ("2025-02", 200000), ("2025-03", 0)]⟩]⟩ }

/-- Actuals whose only month column is 2026-01: a month is present but none
starts with `2025-`. -/
def cex7St : St :=
  { actuals := ⟨["account", "2026-01"], []⟩,
    budget := ⟨["account"], []⟩,
    fx := ⟨["currency"], []⟩,
    cash := ⟨["entity"], []⟩ }

/-- A state with three month columns, out of order, for the latest-month
witness. -/
def stW7 : St :=
  { actuals := ⟨["account", "2025-01", "2025-03", "2025-02"], []⟩,
    budget := ⟨["account"], []⟩,
    fx := ⟨["currency"], []⟩,
    cash := ⟨["entity"], []⟩ }

/-- FX state for scenario 4: EUR listed at 1.08 (= 27/25) for 2025-01. -/
def fxSt : St :=
  { actuals := ⟨["account", "currency", "2025-01"], []⟩,
    budget := ⟨["account"], []⟩,
    fx := ⟨["currency", "2025-01"], [⟨"", "EUR", [("2025-01", 27 / 25)]⟩]⟩,
    cash := ⟨["entity"], []⟩ }

/-- A EUR row carrying 1000 for 2025-01. -/
def eurRow : Row := ⟨"Revenue EMEA", "EUR", [("2025-01", 1000)]⟩

/-- A USD row carrying 2500 for 2025-01. -/
def usdRow : Row := ⟨"Revenue", "USD", [("2025-01", 2500)]⟩

/-- A row in a currency absent from the FX table. -/
def chfRow : Row := ⟨"Revenue CH", "CHF", [("2025-01", 700)]⟩

/-! ### Helper lemmas -/

/-- Appending anything to a non-empty string keeps it non-empty. -/
theorem str_append_ne (s t : String) (h : s ≠ "") : s ++ t ≠ "" := by
  intro he
  apply h
  have hd : s.data ++ t.data = ([] : List Char) := by
    have h2 : (s ++ t).data = ("" : String).data := by rw [he]
    simpa using h2
  have h1 : s.data = [] := (List.append_eq_nil.mp hd).1
  cases s with
  | mk d =>
    have hd2 : d = [] := h1
    rw [hd2]

/-! ### Claim theorems -/

/-- C9: for every state and month, `get_revenue_trend` on the window [m,m]
carries exactly the month and `actual_usd` values of `get_revenue_vs_budget`
on [m,m] — the two operations agree on actual revenue. -/
theorem revenue_trend_agrees_vs_budget (st : St) (m : String) :
    (get_revenue_trend st m m).map (fun r => (r.month, r.revenue_usd)) =
      (get_revenue_vs_budget st m m).map (fun r => (r.month, r.actual_usd)) := by
  simp only [get_revenue_trend, get_revenue_vs_budget, List.map_map]
  rfl

/-- C10: for a month string absent from the month columns, the single-month
operations return absent results: `get_ebitda` yields `none` and
`get_opex_breakdown` yields the empty table. -/
theorem missing_month_absent (st : St) (m : String) (h : m ∉ monthColumns st) :
    get_ebitda st m = none ∧ get_opex_breakdown st m = [] := by
  refine ⟨?_, ?_⟩ <;> simp [get_ebitda, get_opex_breakdown, h]

/-- Witness for C10 at a concrete state and missing month. -/
theorem missing_month_absent_witness :
    get_ebitda scen1St "2024-01" = none ∧
      get_opex_breakdown scen1St "2024-01" = [] :=
  missing_month_absent scen1St "2024-01" (by decide)

/-- C5: currency normalization — a USD row keeps its amount (stored as a
normalized rational, as every decimal amount is) whatever the FX table holds;
a row whose currency is not listed falls back to rate 1.0 and keeps its
amount, never raising; a row whose (month, currency) has a listed non-zero
rate is multiplied by exactly that rate; and in scenario 4 a EUR row of 1000
at rate 1.08 becomes 1080. -/
theorem convert_to_usd_rates :
    (∀ st r m, Q.norm (r.cell m).num (r.cell m).den = r.cell m →
      r.currency = "USD" → rowUSD st r m = r.cell m) ∧
      (∀ st r m, Q.norm (r.cell m).num (r.cell m).den = r.cell m →
        r.currency ≠ "USD" →
        st.fx.rows.find? (fun x => x.currency = r.currency) = none →
        rowUSD st r m = r.cell m) ∧
      (∀ st r m fr rate, r.currency ≠ "USD" →
        st.fx.rows.find? (fun x => x.currency = r.currency) = some fr →
        m ∈ st.fx.cols → fr.cells.lookup m = some rate → rate ≠ 0 →
        rowUSD st r m = r.cell m * rate) ∧
      rowUSD fxSt eurRow "2025-01" = 1080 := by
  refine ⟨?_, ?_, ?_, by decide⟩
  · intro st r m hn h
    have h2 : rowUSD st r m = r.cell m * 1 := by simp [rowUSD, fxRate, h]
    rw [h2, q_mul_one _ hn]
  · intro st r m hn h hf
    have h2 : rowUSD st r m = r.cell m * 1 := by simp [rowUSD, fxRate, h, hf]
    rw [h2, q_mul_one _ hn]
  · intro st r m fr rate h hf hm hl hz
    simp [rowUSD, fxRate, h, hf, hm, hl, hz]

/-- Witness for C5: the three rate cases evaluated on concrete rows over the
scenario 4 FX table. -/
theorem convert_to_usd_rates_witness :
    rowUSD fxSt usdRow "2025-01" = usdRow.cell "2025-01" ∧
      rowUSD fxSt chfRow "2025-01" = chfRow.cell "2025-01" ∧
      rowUSD fxSt eurRow "2025-01" = eurRow.cell "2025-01" * (27 / 25) :=
  ⟨convert_to_usd_rates.1 fxSt usdRow "2025-01" (by decide) rfl,
   convert_to_usd_rates.2.1 fxSt chfRow "2025-01" (by decide) (by decide)
     (by decide),
   convert_to_usd_rates.2.2.1 fxSt eurRow "2025-01" ⟨"", "EUR", [("2025-01", 27 / 25)]⟩
     (27 / 25) (by decide) (by decide) (by decide)
     (by decide) (by decide)⟩

/-- C2 (code bug evidence): on exactly the scenario 3 rows, the wide-format
`get_opex_breakdown` drops the `Opex:Sales` row (its account matches the
`Sales` exclusion pattern) and renames `Opex:Marketing` via the keyword
classifier, returning two grouped rows with total 220,000 instead of the
three suffix-named rows with total 300,000 the spec and the repository test
suite require. -/
theorem opex_breakdown_scenario3_eval :
    get_opex_breakdown cex2St "2025-06" =
      [⟨"R&D", 120000, "2025-06"⟩, ⟨"Sales & Marketing", 100000, "2025-06"⟩] ∧
      Q.sumList ((get_opex_breakdown cex2St "2025-06").map (fun r => r.amount_usd)) =
        220000 := by
  refine ⟨by decide, by decide⟩

/-- C3 counterexample: with a negative total budget the produced row has
`budget_usd ≠ 0` yet `variance_pct = 0`, not `variance_usd / budget_usd *
100 = -150` as the claim's formula requires. -/
theorem revenue_vs_budget_negative_budget_cex :
    (get_revenue_vs_budget cex3St "2025-01" "2025-01").map
        (fun r => (r.budget_usd, r.variance_pct, r.variance_usd / r.budget_usd * 100)) =
      [(-1000, 0, -150)] ∧ (0 : Q) ≠ -150 := by
  refine ⟨by decide, by decide⟩

/-- C3 (amended): every row of `get_revenue_vs_budget` has
`variance_usd = actual_usd - budget_usd`, and `variance_pct` equals
`variance_usd / budget_usd * 100` when `budget_usd > 0` and 0 otherwise
(so in particular 0 when `budget_usd = 0`, never infinity or NaN); scenario
1 yields variance 50,000 and variance_pct 100/19 ≈ 5.26. -/
theorem revenue_vs_budget_variance_policy :
    (∀ st s e r, r ∈ get_revenue_vs_budget st s e →
      r.variance_usd = r.actual_usd - r.budget_usd ∧
        r.variance_pct =
          (if r.budget_usd > 0 then r.variance_usd / r.budget_usd * 100 else 0)) ∧
      get_revenue_vs_budget scen1St "2025-01" "2025-01" = [scen1Row] := by
  constructor
  · intro st s e r hr
    simp only [get_revenue_vs_budget, List.mem_map] at hr
    obtain ⟨m, _, rfl⟩ := hr
    exact ⟨rfl, rfl⟩
  · decide

/-- Witness for C3: the amended row property applied to the scenario 1 row. -/
theorem revenue_vs_budget_variance_policy_witness :
    scen1Row.variance_usd = scen1Row.actual_usd - scen1Row.budget_usd ∧
      scen1Row.variance_pct =
        (if scen1Row.budget_usd > 0 then
          scen1Row.variance_usd / scen1Row.budget_usd * 100 else 0) :=
  revenue_vs_budget_variance_policy.1 scen1St "2025-01" "2025-01" scen1Row
    (by decide)

/-- C4 counterexample: with a negative total revenue the produced row has
`revenue_usd = -100 ≠ 0` yet `gross_margin_pct = 0`, not the claimed formula
value `(revenue - cogs) / revenue * 100 = 100`. -/
theorem gross_margin_negative_revenue_cex :
    (get_gross_margin_trend cex4St "2025-01" "2025-01").map
        (fun r => (r.revenue_usd, r.gross_margin_pct,
          (r.revenue_usd - r.cogs_usd) / r.revenue_usd * 100)) =
      [(-100, 0, 100)] ∧ (0 : Q) ≠ 100 := by
  refine ⟨by decide, by decide⟩

/-- C4 (amended): every row of `get_gross_margin_trend` satisfies
`gross_profit_usd = revenue_usd - cogs_usd` and `gross_margin_pct` equals
`(revenue_usd - cogs_usd) / revenue_usd * 100` when `revenue_usd > 0` and 0
otherwise (so in particular 0 when `revenue_usd = 0`). -/
theorem gross_margin_policy :
    ∀ st s e r, r ∈ get_gross_margin_trend st s e →
      r.gross_profit_usd = r.revenue_usd - r.cogs_usd ∧
        r.gross_margin_pct =
          (if r.revenue_usd > 0 then
            (r.revenue_usd - r.cogs_usd) / r.revenue_usd * 100 else 0) := by
  intro st s e r hr
  simp only [get_gross_margin_trend, List.mem_map] at hr
  obtain ⟨m, _, rfl⟩ := hr
  exact ⟨rfl, rfl⟩

/-- C6 counterexample: with balances 400,000 / 200,000 / 0 the burn is
-200,000 (negative) and the current cash balance is available and equals 0,
yet `get_cash_runway` returns `None` — the claim instead requires
`0 / 200,000 = 0` months, since the burn rate is negative. -/
theorem cash_runway_zero_cash_cex :
    get_average_burn_rate cex6St 3 = some (-200000) ∧
      get_current_cash_balance cex6St = some 0 ∧
      (-200000 : Q) < 0 ∧
      get_cash_runway cex6St = none := by
  refine ⟨by decide, by decide, by decide, by decide⟩

/-- C6 (amended): when both the cash balance and the 3-month average burn are
available, the runway is `cash / |burn|` exactly when the balance is non-zero
and the burn is negative, and absent otherwise (so absent whenever the burn
is ≥ 0, the balance is unavailable, or the balance is exactly 0); when either
input is unavailable the runway is absent; scenario 2 (balances 5,000,000 /
4,800,000 / 4,600,000) gives burn -200,000 and runway 23 months. -/
theorem cash_runway_policy :
    (∀ st c b, get_current_cash_balance st = some c →
      get_average_burn_rate st 3 = some b →
      get_cash_runway st =
        (if c ≠ 0 ∧ b < 0 then some (c / Q.abs b) else none)) ∧
      (∀ st, get_current_cash_balance st = none → get_cash_runway st = none) ∧
      (∀ st, get_average_burn_rate st 3 = none → get_cash_runway st = none) ∧
      get_cash_runway scen2St = some 23 := by
  refine ⟨?_, ?_, ?_, by decide⟩
  · intro st c b hc hb
    simp [get_cash_runway, hc, hb]
  · intro st hc
    simp [get_cash_runway, hc]
  · intro st hb
    rcases h : get_current_cash_balance st with _ | c <;>
      simp [get_cash_runway, h, hb]

/-- Witness for C6: the availability case applied to scenario 2. -/
theorem cash_runway_policy_witness :
    get_cash_runway scen2St =
      (if (4600000 : Q) ≠ 0 ∧ (-200000 : Q) < 0 then
        some ((4600000 : Q) / Q.abs (-200000 : Q)) else none) :=
  cash_runway_policy.1 scen2St 4600000 (-200000) (by decide) (by decide)

/-- Witness for C4: the row property applied to the scenario 1 margin row
(revenue 1,000,000, COGS 0, margin 100%). -/
theorem gross_margin_policy_witness :
    scen1MarginRow.gross_profit_usd =
        scen1MarginRow.revenue_usd - scen1MarginRow.cogs_usd ∧
      scen1MarginRow.gross_margin_pct =
        (if scen1MarginRow.revenue_usd > 0 then
          (scen1MarginRow.revenue_usd - scen1MarginRow.cogs_usd) /
            scen1MarginRow.revenue_usd * 100 else 0) :=
  gross_margin_policy scen1St "2025-01" "2025-01" scen1MarginRow
    (by decide)

/-- Lexicographic `charsLe` is reflexive. -/
theorem charsLe_refl (l : List Char) : charsLe l l = true := by
  induction l with
  | nil => rfl
  | cons a as ih => simp [charsLe, lt_irrefl, ih]

/-- Strict lexicographic order implies the non-strict one. -/
theorem charsLt_imp_le (l1 l2 : List Char) (h : charsLt l1 l2 = true) :
    charsLe l1 l2 = true := by
  induction l1 generalizing l2 with
  | nil => cases l2 <;> simp [charsLe]
  | cons a as ih =>
    cases l2 with
    | nil => simp [charsLt] at h
    | cons b bs =>
      by_cases hab : a < b
      · simp [charsLe, hab]
      · by_cases hba : b < a
        · simp [charsLt, hab, hba] at h
        · simp [charsLt, hab, hba] at h
          simp [charsLe, hab, hba, ih bs h]

/-- Failure of the strict order one way yields the non-strict order the
other way (totality). -/
theorem charsLt_false_le (l1 l2 : List Char) (h : charsLt l1 l2 = false) :
    charsLe l2 l1 = true := by
  induction l1 generalizing l2 with
  | nil =>
    cases l2 with
    | nil => rfl
    | cons b bs => simp [charsLt] at h
  | cons a as ih =>
    cases l2 with
    | nil => rfl
    | cons b bs =>
      by_cases hab : a < b
      · simp [charsLt, hab] at h
      · by_cases hba : b < a
        · simp [charsLe, hba]
        · simp [charsLt, hab, hba] at h
          simp [charsLe, hab, hba, ih bs h]

/-- Non-strict lexicographic order is transitive. -/
theorem charsLe_trans (l1 l2 l3 : List Char) (h1 : charsLe l1 l2 = true)
    (h2 : charsLe l2 l3 = true) : charsLe l1 l3 = true := by
  induction l1 generalizing l2 l3 with
  | nil => cases l3 <;> simp [charsLe]
  | cons a as ih =>
    cases l2 with
    | nil => simp [charsLe] at h1
    | cons b bs =>
      cases l3 with
      | nil => simp [charsLe] at h2
      | cons c cs =>
        by_cases hab : a < b
        · by_cases hbc : b < c
          · simp [charsLe, lt_trans hab hbc]
          · by_cases hcb : c < b
            · simp [charsLe, hbc, hcb] at h2
            · have hbc2 : b = c := le_antisymm (not_lt.mp hcb) (not_lt.mp hbc)
              subst hbc2
              simp [charsLe, hab]
        · by_cases hba : b < a
          · simp [charsLe, hab, hba] at h1
          · have hab2 : a = b := le_antisymm (not_lt.mp hba) (not_lt.mp hab)
            subst hab2
            simp [charsLe, hab] at h1
            by_cases hac : a < c
            · simp [charsLe, hac]
            · by_cases hca : c < a
              · simp [charsLe, hac, hca] at h2
              · simp [charsLe, hac, hca] at h2 ⊢
                exact ih bs cs h1 h2

/-- `strLe` is reflexive. -/
theorem strLe_refl (a : String) : strLe a a = true := charsLe_refl a.data

/-- `strLt` implies `strLe`. -/
theorem strLt_imp_le (a b : String) (h : strLt a b = true) : strLe a b = true :=
  charsLt_imp_le a.data b.data h

/-- `strLt a b = false` gives `strLe b a`. -/
theorem strLt_false_le (a b : String) (h : strLt a b = false) :
    strLe b a = true :=
  charsLt_false_le a.data b.data h

/-- `strLe` is transitive. -/
theorem strLe_trans (a b c : String) (h1 : strLe a b = true)
    (h2 : strLe b c = true) : strLe a c = true :=
  charsLe_trans a.data b.data c.data h1 h2

/-- The running maximum of the Python `max` fold is the accumulator or a list
element. -/
theorem foldl_max_mem (xs : List String) (a : String) :
    xs.foldl (fun x y => if strLt x y then y else x) a = a ∨
      xs.foldl (fun x y => if strLt x y then y else x) a ∈ xs := by
  induction xs generalizing a with
  | nil => left; rfl
  | cons x xs ih =>
    simp only [List.foldl_cons]
    rcases ih (if strLt a x then x else a) with h | h
    · rw [h]
      by_cases hx : strLt a x = true
      · right
        simp [hx]
      · left
        simp [hx]
    · right
      exact List.mem_cons_of_mem _ h

/-- The accumulator is below the running maximum. -/
theorem foldl_max_ge_acc (xs : List String) (a : String) :
    strLe a (xs.foldl (fun x y => if strLt x y then y else x) a) = true := by
  induction xs generalizing a with
  | nil => exact strLe_refl a
  | cons x xs ih =>
    simp only [List.foldl_cons]
    refine strLe_trans a (if strLt a x then x else a) _ ?_ (ih _)
    by_cases hx : strLt a x = true
    · simp [hx, strLt_imp_le a x hx]
    · simp [hx, strLe_refl]

/-- Every list element is below the running maximum. -/
theorem foldl_max_ge_mem (xs : List String) (a m : String) (hm : m ∈ xs) :
    strLe m (xs.foldl (fun x y => if strLt x y then y else x) a) = true := by
  induction xs generalizing a with
  | nil => cases hm
  | cons x xs ih =>
    simp only [List.foldl_cons]
    rcases List.mem_cons.mp hm with rfl | h
    · refine strLe_trans m (if strLt a m then m else a) _ ?_ (foldl_max_ge_acc xs _)
      by_cases hx : strLt a m = true
      · simp [hx, strLe_refl]
      · simp [hx, strLt_false_le a m (by simpa using hx)]
    · exact ih _ h

/-- C7 counterexample: an actuals table whose only month column is 2026-01
has a non-empty set of months present, with maximum 2026-01, yet the code
anchors to the hardcoded fallback 2025-12 because no column starts with
`2025-`. -/
theorem latest_month_non2025_cex :
    specMonthsPresent cex7St.actuals = ["2026-01"] ∧
      get_latest_month cex7St = "2025-12" ∧
      ("2025-12" : String) ≠ "2026-01" := by
  refine ⟨by decide, by decide, by decide⟩

/-- C7 (amended): the latest month that anchors defaults and window
resolution is the maximum of the month columns that start with `2025-`: it is
one of them and every one of them is ≤ it; when no actuals column starts with
`2025-`, the hardcoded fallback `2025-12` is used. -/
theorem latest_month_policy :
    (∀ st, monthColumns st ≠ [] →
      get_latest_month st ∈ monthColumns st ∧
        ∀ m ∈ monthColumns st, strLe m (get_latest_month st) = true) ∧
      ∀ st, monthColumns st = [] → get_latest_month st = "2025-12" := by
  constructor
  · intro st hne
    rcases h : monthColumns st with _ | ⟨x, xs⟩
    · exact absurd h hne
    · have hlatest : get_latest_month st =
          xs.foldl (fun a b => if strLt a b then b else a) x := by
        simp [get_latest_month, listMaxStr, h]
      constructor
      · rw [hlatest]
        rcases foldl_max_mem xs x with h2 | h2
        · rw [h2]
          exact List.mem_cons_self x xs
        · exact List.mem_cons_of_mem _ h2
      · intro m hm
        rw [hlatest]
        rcases List.mem_cons.mp hm with rfl | h2
        · exact foldl_max_ge_acc xs m
        · exact foldl_max_ge_mem xs x m h2
  · intro st h
    simp [get_latest_month, listMaxStr, h]

/-- Witness for C7: on three out-of-order month columns the anchor is a month
column and dominates a concrete one. -/
theorem latest_month_policy_witness :
    get_latest_month stW7 ∈ monthColumns stW7 ∧
      strLe "2025-01" (get_latest_month stW7) = true :=
  ⟨(latest_month_policy.1 stW7 (by decide)).1,
   (latest_month_policy.1 stW7 (by decide)).2 "2025-01" (by decide)⟩

/-- C8: the intent groups are tested in the fixed order revenue_vs_budget,
revenue_trend, gross_margin, opex_breakdown, cash_runway, cash_trend, ebitda,
and the first group with a matching pattern wins; consequently every query
containing both `margin` and revenue...vs...budget phrasing classifies as
revenue_vs_budget. -/
theorem classify_intent_first_match :
    (intent_patterns.map (fun g => g.1) =
      ["revenue_vs_budget", "revenue_trend", "gross_margin", "opex_breakdown",
       "cash_runway", "cash_trend", "ebitda"]) ∧
      ∀ st q, strContains (lowerStr q) "margin" = true →
        inOrderPat ["revenue", "vs", "budget"] (lowerStr q) = true →
        (classify_intent st q).1 = "revenue_vs_budget" := by
  refine ⟨by decide, ?_⟩
  intro st q _hm hp
  have hfind : intent_patterns.find?
      (fun g => g.2.any (fun pt => inOrderPat pt (lowerStr q))) =
      some ("revenue_vs_budget",
        [["revenue", "vs", "budget"], ["revenue", "compared", "budget"],
         ["actual", "revenue", "budget"], ["budget", "vs", "revenue"],
         ["revenue", "against", "budget"]]) := by
    show List.find? _ (_ :: _) = _
    exact List.find?_cons_of_pos _ (by simp [hp])
  simp [classify_intent, hfind]

/-- Witness for C8: a query with both phrasings classifies as
revenue_vs_budget. -/
theorem classify_intent_first_match_witness :
    (classify_intent scen1St "gross margin revenue vs budget").1 =
      "revenue_vs_budget" :=
  classify_intent_first_match.2 scen1St "gross margin revenue vs budget"
    (by decide) (by decide)

/-! ### C1: totality and non-emptiness of the query router -/

/-- The revenue-vs-budget handler never returns an empty response. -/
theorem handle_revenue_vs_budget_ne (st : St) (p : Params) :
    handle_revenue_vs_budget st p ≠ "" := by
  simp only [handle_revenue_vs_budget]
  repeat' split
  all_goals repeat apply str_append_ne
  all_goals decide

/-- The revenue-trend handler never returns an empty response. -/
theorem handle_revenue_trend_ne (st : St) (p : Params) :
    handle_revenue_trend st p ≠ "" := by
  unfold handle_revenue_trend handle_revenue_trend_core
  split
  · rename_i s2 heq
    repeat' split at heq
    all_goals first
      | exact Except.noConfusion heq
      | (injection heq with h2
         rw [← h2]
         repeat apply str_append_ne
         decide)
  · repeat apply str_append_ne
    decide

/-- The gross-margin handler never returns an empty response. -/
theorem handle_gross_margin_ne (st : St) (p : Params) :
    handle_gross_margin st p ≠ "" := by
  unfold handle_gross_margin handle_gross_margin_core
  split
  · rename_i s2 heq
    repeat' split at heq
    all_goals first
      | exact Except.noConfusion heq
      | (injection heq with h2
         rw [← h2]
         repeat apply str_append_ne
         decide)
  · repeat apply str_append_ne
    decide

/-- The OpEx-breakdown handler never returns an empty response. -/
theorem handle_opex_breakdown_ne (st : St) (p : Params) :
    handle_opex_breakdown st p ≠ "" := by
  simp only [handle_opex_breakdown]
  repeat' split
  all_goals repeat apply str_append_ne
  all_goals decide

/-- The cash-runway handler never returns an empty response. -/
theorem handle_cash_runway_ne (st : St) (p : Params) :
    handle_cash_runway st p ≠ "" := by
  simp only [handle_cash_runway]
  repeat apply str_append_ne
  decide

/-- The cash-trend handler never returns an empty response. -/
theorem handle_cash_trend_ne (st : St) (p : Params) :
    handle_cash_trend st p ≠ "" := by
  unfold handle_cash_trend handle_cash_trend_core
  split
  · rename_i s2 heq
    repeat' split at heq
    all_goals first
      | exact Except.noConfusion heq
      | (injection heq with h2
         rw [← h2]
         repeat apply str_append_ne
         decide)
  · repeat apply str_append_ne
    decide

/-- The EBITDA handler never returns an empty response. -/
theorem handle_ebitda_ne (st : St) (p : Params) :
    handle_ebitda st p ≠ "" := by
  simp only [handle_ebitda]
  repeat' split
  all_goals repeat apply str_append_ne
  all_goals decide

/-- The general-guidance response is non-empty. -/
theorem general_response_ne : general_response ≠ "" := by
  simp only [general_response]
  repeat apply str_append_ne
  decide

/-- C1: `process_query` is a total function into response strings — every
fallible step of the source (the `strptime` calls) is converted by the
handler-level `except` blocks into an error text naming the error, so no
exception can reach the router's outer boundary, and the embedded pipeline
returns a non-empty string for every query and state; a query matching no
intent pattern receives exactly the (non-empty) general-guidance response. -/
theorem process_query_total_nonempty :
    (∀ st q, process_query st q ≠ "") ∧
      (∀ st q, (classify_intent st q).1 = "general" →
        process_query st q = general_response) ∧
      general_response ≠ "" := by
  refine ⟨?_, ?_, general_response_ne⟩
  · intro st q
    simp only [process_query]
    repeat' split
    · exact handle_revenue_vs_budget_ne st _
    · exact handle_revenue_trend_ne st _
    · exact handle_gross_margin_ne st _
    · exact handle_opex_breakdown_ne st _
    · exact handle_cash_runway_ne st _
    · exact handle_cash_trend_ne st _
    · exact handle_ebitda_ne st _
    · exact general_response_ne
  · intro st q h
    simp only [process_query, handle_general_query, h]
    rw [if_neg (by decide), if_neg (by decide), if_neg (by decide),
      if_neg (by decide), if_neg (by decide), if_neg (by decide),
      if_neg (by decide)]

/-- Witness for C1: a query matching no intent pattern gets the non-empty
general-guidance response. -/
theorem process_query_total_nonempty_witness :
    process_query scen1St "hello there" ≠ "" ∧
      process_query scen1St "hello there" = general_response :=
  ⟨process_query_total_nonempty.1 scen1St "hello there",
   process_query_total_nonempty.2.1 scen1St "hello there" (by decide)⟩

end CFO
